import Mathlib

/-!
# Verification of the chat CLI (`scripts/chat_cli.py`)

A shallow embedding of the session/credential lifecycle and conversation
relay of the interactive chat CLI.  Python values decoded from JSON are
modelled by the inductive `Json` (Python `None` is `Json.null`); Python
exceptions raised inside a `try` block are modelled by `Except String`;
HTTP responses are inputs to the embedded functions (a transport failure —
connection error or timeout, which `httpx` raises — is `Except.error`,
a completed response carrying a status code is `Except.ok`).  Each CLI
method becomes a pure function from the current state and the responses it
would receive to a structured result recording the new state, the boolean
it returns, and the observable side effects (which requests were issued,
which record was saved, which category of message was printed).
-/

namespace ChatCLI

/-- Python values as decoded from JSON (`Json.null` is Python `None`). -/
inductive Json where
  | null : Json
  | bool (b : Bool) : Json
  | num (n : Int) : Json
  | str (s : String) : Json
  | arr (elems : List Json) : Json
  | obj (fields : List (String × Json)) : Json
deriving Repr, Inhabited

/-- Python truthiness (`if x:`): `None`, `False`, `0`, `""`, `[]`, `{}` are falsy. -/
def Json.truthy : Json → Bool
  | .null => false
  | .bool b => b
  | .num n => n != 0
  | .str s => s != ""
  | .arr xs => !xs.isEmpty
  | .obj fs => !fs.isEmpty

/-- Python `d[k]`: `KeyError` when the key is missing, `TypeError` when the
value is not a dict.  JSON-decoded dicts have unique keys, so first match
suffices. -/
def Json.pyIdx : Json → String → Except String Json
  | .obj fs, k =>
    match fs.find? (fun p => p.1 == k) with
    | some p => .ok p.2
    | none => .error ("KeyError: " ++ k)
  | _, _ => .error "TypeError: value is not subscriptable by string"

/-- Python `d.get(k, default)`: never raises on a dict, `AttributeError`
on anything else. -/
def Json.pyGetD (j : Json) (k : String) (dflt : Json) : Except String Json :=
  match j with
  | .obj fs =>
    .ok (((fs.find? (fun p => p.1 == k)).map (fun p => p.2)).getD dflt)
  | _ => .error "AttributeError: value has no attribute get"

/-- Python `d.get(k)` on a dict, defaulting to `None`; used by `load_config`,
which is only reached when the decoded value is a dict. -/
def Json.pyGet (j : Json) (k : String) : Json :=
  match j.pyGetD k .null with
  | .ok v => v
  | .error _ => .null

/-- Python `for x in v`: lists yield elements, strings yield one-character
strings, dicts yield their keys, everything else raises `TypeError`. -/
def Json.iterElems : Json → Except String (List Json)
  | .arr xs => .ok xs
  | .str s => .ok (s.toList.map (fun c => .str (String.singleton c)))
  | .obj fs => .ok (fs.map (fun p => Json.str p.1))
  | _ => .error "TypeError: value is not iterable"

/-- A completed HTTP response: status code, the outcome of `response.json()`
(`.error` when the body is not valid JSON), and `response.text`. -/
structure Response where
  status : Nat
  jsonBody : Except String Json
  text : String
deriving Repr

/-- The outcome of issuing a request: `.error msg` when `httpx` raises a
transport/timeout exception, `.ok r` when a response came back. -/
abbrev HttpResult := Except String Response

/-- `httpx.Response.raise_for_status` raises unless the status is 2xx. -/
def is2xx (s : Nat) : Bool := 200 ≤ s && s < 300

/-- The four instance fields of the `ChatCLI` object; each holds a Python
value, `Json.null` standing for `None` (their state right after
`__init__` before `load_config`). -/
structure CLIState where
  user_token : Json := .null
  session_token : Json := .null
  session_id : Json := .null
  email : Json := .null
deriving Repr

/-- The state of `CONFIG_FILE` on disk.  `unreadable j` models a file whose
bytes hold the record `j` but whose `open()` raises (e.g. a permission
error); `invalid` models a file whose text `json.load` rejects. -/
inductive FileState where
  | absent : FileState
  | invalid (raw : String) : FileState
  | unreadable (j : Json) : FileState
  | content (j : Json) : FileState
deriving Repr

/-- `load_config`: reads the file if it exists; any exception is caught and
reported as a warning, leaving the in-memory fields as they were.  When the
decoded value is not a dict, the very first `config.get` raises
`AttributeError` before any field is assigned.  Returns the new state and
whether the warning was printed. -/
def load_config (st : CLIState) : FileState → CLIState × Bool
  | .absent => (st, false)
  | .invalid _ => (st, true)
  | .unreadable _ => (st, true)
  | .content j =>
    match j with
    | .obj _ =>
      ({ user_token := j.pyGet "user_token",
         session_token := j.pyGet "session_token",
         session_id := j.pyGet "session_id",
         email := j.pyGet "email" }, false)
    | _ => (st, true)

/-- The record `save_config` serialises: all four in-memory fields,
written wholesale. -/
def saveRecord (st : CLIState) : Json :=
  .obj [("user_token", st.user_token),
        ("session_token", st.session_token),
        ("session_id", st.session_id),
        ("email", st.email)]

/-- `save_config`: overwrites the file with the serialised current state
(the write-failure branch only prints a warning and is not distinguished
here; the claims under study concern the record written). -/
def save_config (st : CLIState) : FileState := .content (saveRecord st)

/-- Python `data["token"]["access_token"]`: both lookups evaluated before
any assignment happens. -/
def tokenAccess (data : Json) : Except String Json :=
  match data.pyIdx "token" with
  | .error e => .error e
  | .ok t => t.pyIdx "access_token"

/-- User-facing outcome of `register`, matching which message the method
prints. -/
inductive RegOutcome where
  | ok : RegOutcome
  | alreadyRegistered : RegOutcome
  | registrationFailed (detail : String) : RegOutcome
deriving Repr

structure RegisterResult where
  success : Bool
  state : CLIState
  saved : Bool
  outcome : RegOutcome
deriving Repr

/-- `ChatCLI.register`: posts the credentials; `raise_for_status` turns any
non-2xx status into an `HTTPStatusError` handled by the first `except`
(status 400 → "already registered", otherwise the response text); any other
exception — transport failure, undecodable body, missing
`token.access_token` — is handled by the generic `except`.  Only on full
success are `user_token` and `email` assigned and `save_config` called. -/
def register (st : CLIState) (em _pw : String) (resp : HttpResult) : RegisterResult :=
  match resp with
  | .error msg => ⟨false, st, false, .registrationFailed msg⟩
  | .ok r =>
    if !is2xx r.status then
      if r.status == 400 then ⟨false, st, false, .alreadyRegistered⟩
      else ⟨false, st, false, .registrationFailed r.text⟩
    else
      match r.jsonBody with
      | .error msg => ⟨false, st, false, .registrationFailed msg⟩
      | .ok data =>
        match tokenAccess data with
        | .error msg => ⟨false, st, false, .registrationFailed msg⟩
        | .ok tok =>
          ⟨true, { st with user_token := tok, email := .str em }, true, .ok⟩

/-- User-facing outcome of `login`. -/
inductive LoginOutcome where
  | ok : LoginOutcome
  | invalidCredentials : LoginOutcome
  | loginFailed (detail : String) : LoginOutcome
deriving Repr

structure LoginResult where
  success : Bool
  state : CLIState
  saved : Bool
  outcome : LoginOutcome
deriving Repr

/-- `ChatCLI.login`: like `register` but form-encoded, 401 → invalid
credentials, and the token is at the top-level `access_token` key. -/
def login (st : CLIState) (em _pw : String) (resp : HttpResult) : LoginResult :=
  match resp with
  | .error msg => ⟨false, st, false, .loginFailed msg⟩
  | .ok r =>
    if !is2xx r.status then
      if r.status == 401 then ⟨false, st, false, .invalidCredentials⟩
      else ⟨false, st, false, .loginFailed r.text⟩
    else
      match r.jsonBody with
      | .error msg => ⟨false, st, false, .loginFailed msg⟩
      | .ok data =>
        match data.pyIdx "access_token" with
        | .error msg => ⟨false, st, false, .loginFailed msg⟩
        | .ok tok =>
          ⟨true, { st with user_token := tok, email := .str em }, true, .ok⟩

/-- User-facing outcome of `create_session`. -/
inductive SessOutcome where
  | ok : SessOutcome
  | notAuthenticated : SessOutcome
  | failed (detail : String) : SessOutcome
deriving Repr

structure SessionResult where
  success : Bool
  state : CLIState
  saved : Bool
  networkCalled : Bool
  outcome : SessOutcome
deriving Repr

/-- `ChatCLI.create_session`: refuses up front when `user_token` is falsy
(`if not self.user_token`), without any request.  Otherwise posts with the
user bearer token; every exception is handled by the single generic
`except`.  Mutation order is that of the source: `session_token` is
assigned before `session_id` is looked up, `save_config` runs before the
success message, and the success message slices `session_id[:8]`, which
succeeds for strings and lists (both slice in Python) but raises
`TypeError` for non-subscriptable values (`None`, booleans, numbers,
dicts). -/
def create_session (st : CLIState) (resp : HttpResult) : SessionResult :=
  if !st.user_token.truthy then
    ⟨false, st, false, false, .notAuthenticated⟩
  else
    match resp with
    | .error msg => ⟨false, st, false, true, .failed msg⟩
    | .ok r =>
      if !is2xx r.status then ⟨false, st, false, true, .failed r.text⟩
      else
        match r.jsonBody with
        | .error msg => ⟨false, st, false, true, .failed msg⟩
        | .ok data =>
          match tokenAccess data with
          | .error msg => ⟨false, st, false, true, .failed msg⟩
          | .ok tok =>
            let st1 := { st with session_token := tok }
            match data.pyIdx "session_id" with
            | .error msg => ⟨false, st1, false, true, .failed msg⟩
            | .ok sid =>
              let st2 := { st1 with session_id := sid }
              match sid with
              | .str _ => ⟨true, st2, true, true, .ok⟩
              | .arr _ => ⟨true, st2, true, true, .ok⟩
              | _ => ⟨false, st2, true, true,
                      .failed "TypeError: value is not subscriptable by slice"⟩

/-- The message dict the CLI appends for the new user turn. -/
def userMsg (message : String) : Json :=
  .obj [("role", .str "user"), ("content", .str message)]

/-- Python `msg["role"] == "assistant"` once the lookup succeeded: true
exactly when the value is the string `"assistant"` (no Python value of
another type equals this string). -/
def isAssistantRole : Json → Bool
  | .str s => s == "assistant"
  | _ => false

/-- The list comprehension
`[msg for msg in ... if msg["role"] == "assistant"]`: evaluated left to
right, raising at the first element whose `"role"` lookup raises. -/
def filterAssistant : List Json → Except String (List Json)
  | [] => .ok []
  | m :: rest =>
    match m.pyIdx "role" with
    | .error e => .error e
    | .ok r =>
      match filterAssistant rest with
      | .error e => .error e
      | .ok tail => .ok (if isAssistantRole r then m :: tail else tail)

/-- Lines 207–219 of the source: the history GET with the session bearer
token.  Exactly a 200 status is consulted (`status_code == 200`); any other
status silently yields the empty list.  On a 200, `response.json()`,
`history_data.get("messages", [])` and the later `messages.append` can
raise, which aborts the turn. -/
def fetchHistory (hist : HttpResult) : Except String (List Json) :=
  match hist with
  | .error msg => .error msg
  | .ok hr =>
    if hr.status == 200 then
      match hr.jsonBody with
      | .error msg => .error msg
      | .ok hd =>
        match hd.pyGetD "messages" (.arr []) with
        | .error msg => .error msg
        | .ok m =>
          match m with
          | .arr xs => .ok xs
          | _ => .error "AttributeError: value has no attribute append"
    else .ok []

/-- Lines 229–235 of the source: decode the chat response body, index
`data["messages"]`, iterate it filtering on role, and take
`assistant_messages[-1]["content"]`; an empty filter result returns
Python `None` without raising. -/
def extractReply (data : Json) : Except String Json :=
  match data.pyIdx "messages" with
  | .error e => .error e
  | .ok msgsVal =>
    match msgsVal.iterElems with
    | .error e => .error e
    | .ok elems =>
      match filterAssistant elems with
      | .error e => .error e
      | .ok assistants =>
        match assistants.getLast? with
        | some lastMsg => lastMsg.pyIdx "content"
        | none => .ok .null

/-- Observable outcome of one `ChatCLI.chat` call.  `reply` is the returned
value (`Json.null` is Python `None`); `posted` is the `messages` payload of
the chat POST when that request was issued; `errorPrinted` records whether
one of the two `except` handlers printed a "Chat request failed" message. -/
structure ChatResult where
  reply : Json
  state : CLIState
  noSessionPrinted : Bool
  createSessionCalled : Bool
  sessionSaved : Bool
  historyCalled : Bool
  posted : Option (List Json)
  errorPrinted : Bool
deriving Repr

/-- The `try` block of `ChatCLI.chat` (lines 205–241), entered with the
state `st`: fetch history, append the new user message, POST the full
list, extract the last assistant reply; any exception is caught and turns
into a `None` return after an error message. -/
def chatAfterSession (st : CLIState) (message : String) (hist post : HttpResult)
    (noSess csCalled csSaved : Bool) : ChatResult :=
  match fetchHistory hist with
  | .error _ =>
    ⟨.null, st, noSess, csCalled, csSaved, true, none, true⟩
  | .ok fetched =>
    let postedList := fetched ++ [userMsg message]
    match post with
    | .error _ => ⟨.null, st, noSess, csCalled, csSaved, true, some postedList, true⟩
    | .ok pr =>
      if !is2xx pr.status then
        ⟨.null, st, noSess, csCalled, csSaved, true, some postedList, true⟩
      else
        match pr.jsonBody with
        | .error _ => ⟨.null, st, noSess, csCalled, csSaved, true, some postedList, true⟩
        | .ok data =>
          match extractReply data with
          | .error _ => ⟨.null, st, noSess, csCalled, csSaved, true, some postedList, true⟩
          | .ok reply => ⟨reply, st, noSess, csCalled, csSaved, true, some postedList, false⟩

/-- `ChatCLI.chat`: when `session_token` is falsy it first prints the
"No active session. Creating one..." error and invokes `create_session`
(whose response, if a request is issued at all, is `csResp`); a failed
creation returns `None` with no relay request.  Otherwise the `try` block
runs. -/
def chat (st : CLIState) (message : String) (csResp hist post : HttpResult) : ChatResult :=
  if !st.session_token.truthy then
    let cs := create_session st csResp
    if !cs.success then
      ⟨.null, cs.state, true, true, cs.saved, false, none, false⟩
    else
      chatAfterSession cs.state message hist post true true cs.saved
  else
    chatAfterSession st message hist post false false false

/-- The message dict the interactive loop appends for the assistant turn. -/
def assistantMsg (reply : Json) : Json :=
  .obj [("role", .str "assistant"), ("content", reply)]

/-- Python `str.strip()`: drop whitespace from both ends (structural on the
character list, so it computes by reduction). -/
def pyStrip (s : String) : String :=
  ⟨((s.data.dropWhile Char.isWhitespace).reverse.dropWhile Char.isWhitespace).reverse⟩

/-- Python `str.lower()` (structural on the character list). -/
def pyLower (s : String) : String :=
  ⟨s.data.map Char.toLower⟩

/-- The environment one iteration of the interactive loop consumes: the
line typed by the user and the outcomes of the requests that iteration
would issue. -/
structure TurnEnv where
  input : String
  deleteResp : HttpResult
  csResp : HttpResult
  histResp : HttpResult
  postResp : HttpResult

/-- Observable outcome of one iteration of the `while True` loop. -/
structure StepResult where
  quit : Bool
  state : CLIState
  history : List Json
  deleteCalled : Bool
  deleteBearer : Option Json
  successPrinted : Bool
  errorPrinted : Bool
  createCalls : Nat
deriving Repr

/-- One iteration of the interactive loop (lines 283–324): strip the line;
empty lines re-prompt; `quit`/`exit`/`q` (case-insensitive) terminate;
`clear` issues the DELETE with the session bearer token — `httpx.delete`
raises only on transport failure, the status code is never examined — and
on a completed response resets `conversation_history` and prints success,
while a transport exception prints an error and leaves the transcript;
anything else is forwarded to `chat` and the transcript grows only when
the reply is truthy. -/
def loopStep (st : CLIState) (hist : List Json) (ev : TurnEnv) : StepResult :=
  let line := pyStrip ev.input
  if line = "" then ⟨false, st, hist, false, none, false, false, 0⟩
  else if pyLower line = "quit" ∨ pyLower line = "exit" ∨ pyLower line = "q" then
    ⟨true, st, hist, false, none, false, false, 0⟩
  else if pyLower line = "clear" then
    match ev.deleteResp with
    | .ok _ => ⟨false, st, [], true, some st.session_token, true, false, 0⟩
    | .error _ => ⟨false, st, hist, true, some st.session_token, false, true, 0⟩
  else
    let c := chat st line ev.csResp ev.histResp ev.postResp
    if c.reply.truthy then
      ⟨false, c.state, hist ++ [userMsg line, assistantMsg c.reply], false, none,
       false, false, if c.createSessionCalled then 1 else 0⟩
    else
      ⟨false, c.state, hist, false, none, false, true,
       if c.createSessionCalled then 1 else 0⟩

/-- The interactive loop over a finite list of typed lines, counting how
many times `create_session` is invoked (from `chat`'s no-session branch). -/
def runLoop : CLIState → List Json → List TurnEnv → Nat
  | _, _, [] => 0
  | st, hist, ev :: rest =>
    let r := loopStep st hist ev
    if r.quit then r.createCalls
    else r.createCalls + runLoop r.state r.history rest

/-- Environment for one `run()` call: the credentials the login prompt
would produce, the responses of the requests startup would issue, and the
loop's events. -/
structure RunEnv where
  promptedEmail : String
  promptedPassword : String
  loginResp : HttpResult
  csResp : HttpResult
  events : List TurnEnv

/-- `ChatCLI.authenticate`: saved credentials short-circuit the prompt. -/
def authenticate (st : CLIState) (env : RunEnv) : Bool × CLIState :=
  if st.user_token.truthy then (true, st)
  else
    let lr := login st env.promptedEmail env.promptedPassword env.loginResp
    (lr.success, lr.state)

/-- Outcome of `run()`: how many times `create_session` was invoked during
the whole call, and which early-exit path (if any) was taken. -/
structure RunResult where
  createCalls : Nat
  authFailed : Bool
  sessionFailed : Bool
deriving Repr

/-- `ChatCLI.run` (lines 263–324): authenticate, create a session only when
`session_token` is falsy, then the interactive loop. -/
def run (st : CLIState) (env : RunEnv) : RunResult :=
  let a := authenticate st env
  if !a.1 then ⟨0, true, false⟩
  else
    let st1 := a.2
    if !st1.session_token.truthy then
      let cs := create_session st1 env.csResp
      if !cs.success then ⟨1, false, true⟩
      else ⟨1 + runLoop cs.state [] env.events, false, false⟩
    else ⟨runLoop st1 [] env.events, false, false⟩

/-- The optional `--email`/`--password` argument values (argparse default
`None`). -/
structure MainArgs where
  email : Option String
  password : Option String

/-- Python truthiness of an optional string argument (`if args.email`). -/
def argTruthy : Option String → Bool
  | none => false
  | some s => s != ""

/-- Outcome of `main()`: total `create_session` invocation count and the
exit status when `sys.exit(1)` was reached on the quick-login path. -/
structure MainResult where
  createCalls : Nat
  exitCode : Option Nat
deriving Repr

/-- `main` (lines 327–357): construct the CLI (loading the config file),
and if both `--email` and `--password` are truthy run the quick-login path
— `login` then, unconditionally, `create_session` — before `run()`. -/
def mainRun (file : FileState) (args : MainArgs)
    (quickLoginResp quickCsResp : HttpResult) (env : RunEnv) : MainResult :=
  let st0 := (load_config {} file).1
  match args.email, args.password with
  | some em, some pw =>
    if em != "" && pw != "" then
      let lr := login st0 em pw quickLoginResp
      if !lr.success then ⟨0, some 1⟩
      else
        let cs := create_session lr.state quickCsResp
        if !cs.success then ⟨1, some 1⟩
        else
          let r := run cs.state env
          ⟨1 + r.createCalls, none⟩
    else
      let r := run st0 env
      ⟨r.createCalls, none⟩
  | _, _ =>
    let r := run st0 env
    ⟨r.createCalls, none⟩

/-- The predicate of the comprehension filter, as a total function on one
entry: the `"role"` lookup succeeded and the value equals `"assistant"`
(used to state what `filterAssistant` computes when no entry raises). -/
def roleIsAssistant (m : Json) : Bool :=
  match m.pyIdx "role" with
  | .ok r => isAssistantRole r
  | .error _ => false

/-! ## Helper lemmas -/

theorem chatAfterSession_historyCalled (st : CLIState) (m : String)
    (hist post : HttpResult) (a b c : Bool) :
    (chatAfterSession st m hist post a b c).historyCalled = true := by
  simp only [chatAfterSession]
  repeat first | rfl | split

theorem chatAfterSession_state (st : CLIState) (m : String)
    (hist post : HttpResult) (a b c : Bool) :
    (chatAfterSession st m hist post a b c).state = st := by
  simp only [chatAfterSession]
  repeat first | rfl | split

theorem chatAfterSession_noSessionPrinted (st : CLIState) (m : String)
    (hist post : HttpResult) (a b c : Bool) :
    (chatAfterSession st m hist post a b c).noSessionPrinted = a := by
  simp only [chatAfterSession]
  repeat first | rfl | split

theorem chatAfterSession_createSessionCalled (st : CLIState) (m : String)
    (hist post : HttpResult) (a b c : Bool) :
    (chatAfterSession st m hist post a b c).createSessionCalled = b := by
  simp only [chatAfterSession]
  repeat first | rfl | split

theorem chatAfterSession_posted (st : CLIState) (m : String)
    (hist post : HttpResult) (a b c : Bool) (fetched : List Json)
    (hf : fetchHistory hist = .ok fetched) :
    (chatAfterSession st m hist post a b c).posted
      = some (fetched ++ [userMsg m]) := by
  simp only [chatAfterSession, hf]
  repeat first | rfl | split

theorem fetchHistory_non200 (hr : Response) (h : hr.status ≠ 200) :
    fetchHistory (.ok hr) = .ok [] := by
  simp [fetchHistory, h]

theorem chat_truthy_session (st : CLIState) (m : String) (cs hist post : HttpResult)
    (h : st.session_token.truthy = true) :
    chat st m cs hist post = chatAfterSession st m hist post false false false := by
  simp [chat, h]

theorem login_preserves_session_token (st : CLIState) (em pw : String) (r : HttpResult) :
    (login st em pw r).state.session_token = st.session_token := by
  cases r with
  | error e => rfl
  | ok resp =>
    simp only [login]
    repeat first | rfl | split

theorem chat_truthy_preserves (st : CLIState) (m : String) (cs hist post : HttpResult)
    (h : st.session_token.truthy = true) :
    (chat st m cs hist post).state = st ∧
    (chat st m cs hist post).createSessionCalled = false := by
  rw [chat_truthy_session st m cs hist post h]
  exact ⟨chatAfterSession_state st m hist post false false false,
         chatAfterSession_createSessionCalled st m hist post false false false⟩

theorem loopStep_truthy (st : CLIState) (hist : List Json) (ev : TurnEnv)
    (h : st.session_token.truthy = true) :
    (loopStep st hist ev).createCalls = 0 ∧ (loopStep st hist ev).state = st := by
  have hc := chat_truthy_preserves st (pyStrip ev.input) ev.csResp ev.histResp ev.postResp h
  by_cases h0 : pyStrip ev.input = ""
  · simp [loopStep, h0]
  · by_cases h1 : (pyLower (pyStrip ev.input) = "quit" ∨
        pyLower (pyStrip ev.input) = "exit" ∨ pyLower (pyStrip ev.input) = "q")
    · simp [loopStep, h0, h1]
    · by_cases h2 : pyLower (pyStrip ev.input) = "clear"
      · cases hd : ev.deleteResp <;> simp [loopStep, h0, h1, h2, hd]
      · cases hrt : (chat st (pyStrip ev.input) ev.csResp ev.histResp ev.postResp).reply.truthy <;>
          simp [loopStep, h0, h1, h2, hrt, hc.1, hc.2]

theorem runLoop_truthy (events : List TurnEnv) :
    ∀ (st : CLIState) (hist : List Json), st.session_token.truthy = true →
      runLoop st hist events = 0 := by
  induction events with
  | nil => intro st hist _; rfl
  | cons ev rest ih =>
    intro st hist h
    have hs := loopStep_truthy st hist ev h
    simp only [runLoop]
    rw [hs.1]
    cases hq : (loopStep st hist ev).quit <;> simp [hq]
    exact ih _ _ (by rw [hs.2]; exact h)

theorem run_truthy_no_creates (st : CLIState) (env : RunEnv)
    (h : st.session_token.truthy = true) :
    (run st env).createCalls = 0 := by
  by_cases hu : st.user_token.truthy
  · simp [run, authenticate, hu, h, runLoop_truthy env.events st [] h]
  · have hl := login_preserves_session_token st env.promptedEmail env.promptedPassword
      env.loginResp
    cases hs : (login st env.promptedEmail env.promptedPassword env.loginResp).success
    · simp [run, authenticate, hu, hs]
    · have h2 : (login st env.promptedEmail env.promptedPassword
          env.loginResp).state.session_token.truthy = true := by rw [hl]; exact h
      simp [run, authenticate, hu, hs, h2, runLoop_truthy env.events _ [] h2]

theorem filterAssistant_eq_filter (entries : List Json)
    (hwf : ∀ m ∈ entries, ∃ r, m.pyIdx "role" = .ok r) :
    filterAssistant entries = .ok (entries.filter roleIsAssistant) := by
  induction entries with
  | nil => rfl
  | cons m rest ih =>
    obtain ⟨r, hr⟩ := hwf m (by simp)
    have ih2 := ih (fun x hx => hwf x (by simp [hx]))
    have hm : roleIsAssistant m = isAssistantRole r := by simp [roleIsAssistant, hr]
    cases h : isAssistantRole r <;>
      simp [filterAssistant, hr, ih2, List.filter_cons, hm, h]

/-! ## Claim theorems -/

/-- C5: a `create_session` call with the user token absent fails with the
not-authenticated outcome and issues no network request. -/
theorem create_session_refused_without_user_token (st : CLIState) (resp : HttpResult)
    (h : st.user_token = Json.null) :
    (create_session st resp).success = false ∧
    (create_session st resp).outcome = SessOutcome.notAuthenticated ∧
    (create_session st resp).networkCalled = false := by
  simp [create_session, h, Json.truthy]

theorem create_session_refused_without_user_token_witness :
    (create_session {} (Except.ok ⟨200, Except.ok Json.null, "body"⟩)).success = false ∧
    (create_session {} (Except.ok ⟨200, Except.ok Json.null, "body"⟩)).outcome
      = SessOutcome.notAuthenticated ∧
    (create_session {} (Except.ok ⟨200, Except.ok Json.null, "body"⟩)).networkCalled = false :=
  create_session_refused_without_user_token {} (Except.ok ⟨200, Except.ok Json.null, "body"⟩) rfl

/-- C8: `register` returns failure (never raises) in all three error cases:
a transport failure carries the transport message, an HTTP 400 yields the
already-registered outcome, and any other non-2xx carries the response
detail. -/
theorem register_failure_outcomes (st : CLIState) (em pw : String) :
    (∀ e, (register st em pw (.error e)).success = false ∧
          (register st em pw (.error e)).outcome = RegOutcome.registrationFailed e) ∧
    (∀ r : Response, r.status = 400 →
          (register st em pw (.ok r)).success = false ∧
          (register st em pw (.ok r)).outcome = RegOutcome.alreadyRegistered) ∧
    (∀ r : Response, is2xx r.status = false → r.status ≠ 400 →
          (register st em pw (.ok r)).success = false ∧
          (register st em pw (.ok r)).outcome = RegOutcome.registrationFailed r.text) := by
  refine ⟨fun e => ⟨rfl, rfl⟩, fun r h400 => ?_, fun r hn2 hne => ?_⟩
  · simp [register, h400, is2xx]
  · have h4 : (r.status == 400) = false := by simpa using hne
    simp [register, hn2, h4]

theorem register_failure_outcomes_witness :
    ((register {} "a@b.c" "pw" (.error "timeout")).outcome
        = RegOutcome.registrationFailed "timeout") ∧
    ((register {} "a@b.c" "pw" (.ok ⟨400, .error "nb", "dup"⟩)).outcome
        = RegOutcome.alreadyRegistered) ∧
    ((register {} "a@b.c" "pw" (.ok ⟨500, .error "nb", "boom"⟩)).outcome
        = RegOutcome.registrationFailed "boom") :=
  ⟨((register_failure_outcomes {} "a@b.c" "pw").1 "timeout").2,
   ((register_failure_outcomes {} "a@b.c" "pw").2.1 ⟨400, .error "nb", "dup"⟩ rfl).2,
   ((register_failure_outcomes {} "a@b.c" "pw").2.2 ⟨500, .error "nb", "boom"⟩
      (by decide) (by decide)).2⟩

/-- C9: when `register` or `login` fails on a non-2xx response or a
transport failure, the whole in-memory state (in particular `user_token`
and `email`) is unchanged and `save_config` is not called. -/
theorem auth_failure_preserves_credentials (st : CLIState) (em pw : String)
    (resp : HttpResult)
    (hfail : (∃ e, resp = .error e) ∨ ∃ r, resp = .ok r ∧ is2xx r.status = false) :
    ((register st em pw resp).state = st ∧ (register st em pw resp).saved = false) ∧
    ((login st em pw resp).state = st ∧ (login st em pw resp).saved = false) := by
  rcases hfail with ⟨e, rfl⟩ | ⟨r, rfl, hr⟩
  · exact ⟨⟨rfl, rfl⟩, ⟨rfl, rfl⟩⟩
  · constructor
    · cases h4 : (r.status == 400) <;> simp [register, hr, h4]
    · cases h1 : (r.status == 401) <;> simp [login, hr, h1]

theorem auth_failure_preserves_credentials_witness :
    ((register { user_token := Json.str "old-tok", email := Json.str "old@x" }
        "new@x" "pw" (.error "connection refused")).state
      = { user_token := Json.str "old-tok", email := Json.str "old@x" } ∧
     (register { user_token := Json.str "old-tok", email := Json.str "old@x" }
        "new@x" "pw" (.error "connection refused")).saved = false) ∧
    ((login { user_token := Json.str "old-tok", email := Json.str "old@x" }
        "new@x" "pw" (.error "connection refused")).state
      = { user_token := Json.str "old-tok", email := Json.str "old@x" } ∧
     (login { user_token := Json.str "old-tok", email := Json.str "old@x" }
        "new@x" "pw" (.error "connection refused")).saved = false) :=
  auth_failure_preserves_credentials
    { user_token := Json.str "old-tok", email := Json.str "old@x" }
    "new@x" "pw" (.error "connection refused")
    (Or.inl ⟨"connection refused", rfl⟩)

/-- C1: when the history fetch comes back with a non-200 status, the turn
does not fail on the fetch: the history is treated as empty and the
message list posted to the chat endpoint is exactly the single new
`{role: user, content: message}` entry. -/
theorem chat_non200_history_posts_exactly_new_user_msg (st : CLIState) (message : String)
    (cs post : HttpResult) (hr : Response)
    (hsess : st.session_token.truthy = true)
    (hstatus : hr.status ≠ 200) :
    (chat st message cs (.ok hr) post).posted = some [userMsg message] := by
  rw [chat_truthy_session st message cs (.ok hr) post hsess]
  have h := chatAfterSession_posted st message (.ok hr) post false false false []
    (fetchHistory_non200 hr hstatus)
  simpa using h

theorem chat_non200_history_posts_exactly_new_user_msg_witness :
    (chat { session_token := Json.str "S" } "hello" (.error "unused")
        (.ok ⟨404, .error "nb", "not found"⟩) (.error "server down")).posted
      = some [userMsg "hello"] :=
  chat_non200_history_posts_exactly_new_user_msg
    { session_token := Json.str "S" } "hello" (.error "unused") (.error "server down")
    ⟨404, .error "nb", "not found"⟩ rfl (by decide)

/-- C2: on a successful chat response whose body decodes and carries a
`messages` list with readable roles, `chat` returns the content of the
last assistant-role entry; with zero assistant entries it returns `None`
without printing an error. -/
theorem chat_returns_last_assistant_content (st : CLIState) (message : String)
    (cs hist post : HttpResult) (fetched : List Json) (pr : Response)
    (data mv : Json) (entries : List Json)
    (hsess : st.session_token.truthy = true)
    (hf : fetchHistory hist = .ok fetched)
    (hpost : post = .ok pr)
    (h2 : is2xx pr.status = true)
    (hbody : pr.jsonBody = .ok data)
    (hmsgs : data.pyIdx "messages" = .ok mv)
    (hiter : mv.iterElems = .ok entries)
    (hwf : ∀ m ∈ entries, ∃ r, m.pyIdx "role" = .ok r) :
    (entries.filter roleIsAssistant = [] →
        (chat st message cs hist post).reply = .null ∧
        (chat st message cs hist post).errorPrinted = false) ∧
    (∀ lastM c, (entries.filter roleIsAssistant).getLast? = some lastM →
        lastM.pyIdx "content" = .ok c →
        (chat st message cs hist post).reply = c) := by
  subst hpost
  have hcs := chat_truthy_session st message cs hist (.ok pr) hsess
  constructor
  · intro hempty
    have hex : extractReply data = .ok .null := by
      simp [extractReply, hmsgs, hiter, filterAssistant_eq_filter entries hwf, hempty]
    rw [hcs]
    simp [chatAfterSession, hf, h2, hbody, hex]
  · intro lastM c hlast hcont
    have hex : extractReply data = .ok c := by
      simp [extractReply, hmsgs, hiter, filterAssistant_eq_filter entries hwf, hlast, hcont]
    rw [hcs]
    simp [chatAfterSession, hf, h2, hbody, hex]

theorem chat_returns_last_assistant_content_witness :
    (chat { session_token := Json.str "S" } "question" (.error "unused")
        (.ok ⟨404, .error "nb", "not found"⟩)
        (.ok ⟨200,
              .ok (.obj [("messages",
                    .arr [.obj [("role", .str "user"), ("content", .str "question")],
                          .obj [("role", .str "assistant"), ("content", .str "first")],
                          .obj [("role", .str "assistant"), ("content", .str "final")]])]),
              "t"⟩)).reply = Json.str "final" :=
  (chat_returns_last_assistant_content { session_token := Json.str "S" } "question"
    (.error "unused") (.ok ⟨404, .error "nb", "not found"⟩)
    (.ok ⟨200,
          .ok (.obj [("messages",
                .arr [.obj [("role", .str "user"), ("content", .str "question")],
                      .obj [("role", .str "assistant"), ("content", .str "first")],
                      .obj [("role", .str "assistant"), ("content", .str "final")]])]),
          "t"⟩) []
    ⟨200,
     .ok (.obj [("messages",
           .arr [.obj [("role", .str "user"), ("content", .str "question")],
                 .obj [("role", .str "assistant"), ("content", .str "first")],
                 .obj [("role", .str "assistant"), ("content", .str "final")]])]),
     "t"⟩
    (.obj [("messages",
          .arr [.obj [("role", .str "user"), ("content", .str "question")],
                .obj [("role", .str "assistant"), ("content", .str "first")],
                .obj [("role", .str "assistant"), ("content", .str "final")]])])
    (.arr [.obj [("role", .str "user"), ("content", .str "question")],
           .obj [("role", .str "assistant"), ("content", .str "first")],
           .obj [("role", .str "assistant"), ("content", .str "final")]])
    [.obj [("role", .str "user"), ("content", .str "question")],
     .obj [("role", .str "assistant"), ("content", .str "first")],
     .obj [("role", .str "assistant"), ("content", .str "final")]]
    rfl rfl rfl rfl rfl rfl rfl
    (by intro m hm
        simp [List.mem_cons] at hm
        rcases hm with rfl | rfl | rfl
        · exact ⟨_, rfl⟩
        · exact ⟨_, rfl⟩
        · exact ⟨_, rfl⟩)).2
    (.obj [("role", .str "assistant"), ("content", .str "final")]) (.str "final") rfl rfl

/-- C6: a `chat` call with the session token absent does not silently
proceed: the no-session condition is surfaced (an error is printed and
`create_session` is invoked) before any relay request; if creation fails
no relay request is ever issued and `None` is returned, and if creation
succeeds the turn proceeds with the history fetch. -/
theorem chat_without_session_surfaces_and_recovers (st : CLIState) (message : String)
    (cs hist post : HttpResult)
    (habs : st.session_token = Json.null) :
    (chat st message cs hist post).noSessionPrinted = true ∧
    (chat st message cs hist post).createSessionCalled = true ∧
    ((create_session st cs).success = false →
        (chat st message cs hist post).historyCalled = false ∧
        (chat st message cs hist post).posted = none ∧
        (chat st message cs hist post).reply = .null) ∧
    ((create_session st cs).success = true →
        (chat st message cs hist post).historyCalled = true) := by
  have hft : st.session_token.truthy = false := by rw [habs]; rfl
  cases hsucc : (create_session st cs).success with
  | false =>
    refine ⟨?_, ?_, fun _ => ⟨?_, ?_, ?_⟩, fun hc => by simp [hsucc] at hc⟩ <;>
      simp [chat, hft, hsucc]
  | true =>
    refine ⟨?_, ?_, fun hc => by simp [hsucc] at hc, fun _ => ?_⟩
    · simp [chat, hft, hsucc, chatAfterSession_noSessionPrinted]
    · simp [chat, hft, hsucc, chatAfterSession_createSessionCalled]
    · simp [chat, hft, hsucc, chatAfterSession_historyCalled]

theorem chat_without_session_surfaces_and_recovers_witness :
    ((chat {} "hi" (.error "conn refused") (.error "h") (.error "p")).noSessionPrinted = true ∧
     (chat {} "hi" (.error "conn refused") (.error "h") (.error "p")).historyCalled = false ∧
     (chat {} "hi" (.error "conn refused") (.error "h") (.error "p")).posted = none ∧
     (chat {} "hi" (.error "conn refused") (.error "h") (.error "p")).reply = .null) ∧
    ((chat { user_token := Json.str "U" } "hi"
        (.ok ⟨200, .ok (.obj [("token", .obj [("access_token", .str "S")]),
                              ("session_id", .str "abcdefgh")]), "t"⟩)
        (.error "h") (.error "p")).historyCalled = true) :=
  have h1 := chat_without_session_surfaces_and_recovers {} "hi"
    (.error "conn refused") (.error "h") (.error "p") rfl
  have h2 := chat_without_session_surfaces_and_recovers { user_token := Json.str "U" } "hi"
    (.ok ⟨200, .ok (.obj [("token", .obj [("access_token", .str "S")]),
                          ("session_id", .str "abcdefgh")]), "t"⟩)
    (.error "h") (.error "p") rfl
  ⟨⟨h1.1, (h1.2.2.1 rfl).1, (h1.2.2.1 rfl).2.1, (h1.2.2.1 rfl).2.2⟩, h2.2.2.2 rfl⟩

/-- C10: with a session token present, `chat` converts every failure of
the turn — transport error or bad body on the history fetch, transport
error on the chat post, non-2xx chat response, undecodable chat body, or
a body whose message extraction raises (missing `messages` field or a
malformed entry) — into a `None` return after a printed error; no
exception escapes (the embedding is a total function). -/
theorem chat_failure_returns_none (st : CLIState) (message : String)
    (cs hist post : HttpResult)
    (hsess : st.session_token.truthy = true)
    (hfail : (∃ e, fetchHistory hist = .error e) ∨
             (∃ e, post = .error e) ∨
             (∃ pr : Response, post = .ok pr ∧ is2xx pr.status = false) ∨
             (∃ (pr : Response) (e : String),
                post = .ok pr ∧ pr.jsonBody = .error e) ∨
             (∃ (pr : Response) (data : Json) (e : String),
                post = .ok pr ∧ pr.jsonBody = .ok data ∧ extractReply data = .error e)) :
    (chat st message cs hist post).reply = .null ∧
    (chat st message cs hist post).errorPrinted = true := by
  rw [chat_truthy_session st message cs hist post hsess]
  rcases hfail with ⟨e, he⟩ | ⟨e, rfl⟩ | ⟨pr, rfl, h2⟩ | ⟨pr, e, rfl, hb⟩ |
    ⟨pr, data, e, rfl, hb, hx⟩
  · simp [chatAfterSession, he]
  · cases hfh : fetchHistory hist with
    | error e2 => simp [chatAfterSession, hfh]
    | ok fetched => simp [chatAfterSession, hfh]
  · cases hfh : fetchHistory hist with
    | error e2 => simp [chatAfterSession, hfh]
    | ok fetched => simp [chatAfterSession, hfh, h2]
  · cases hfh : fetchHistory hist with
    | error e2 => simp [chatAfterSession, hfh]
    | ok fetched =>
      cases h2 : is2xx pr.status <;> simp [chatAfterSession, hfh, h2, hb]
  · cases hfh : fetchHistory hist with
    | error e2 => simp [chatAfterSession, hfh]
    | ok fetched =>
      cases h2 : is2xx pr.status <;> simp [chatAfterSession, hfh, h2, hb, hx]

theorem chat_failure_returns_none_witness :
    (chat { session_token := Json.str "S" } "hi" (.error "unused")
        (.error "history timeout") (.error "post timeout")).reply = Json.null ∧
    (chat { session_token := Json.str "S" } "hi" (.error "unused")
        (.error "history timeout") (.error "post timeout")).errorPrinted = true :=
  chat_failure_returns_none { session_token := Json.str "S" } "hi" (.error "unused")
    (.error "history timeout") (.error "post timeout") rfl
    (Or.inl ⟨"history timeout", rfl⟩)

/-- C3 counterexample: the file holds a full record whose `user_token` is
`"tok-old"`, but `open()` raises, so `load_config` fails (warning printed)
and leaves the fresh in-memory fields `None`; the very next `save_config`
then overwrites the file with an all-`null` record — the previously stored
`"tok-old"` is clobbered, not merged. -/
theorem load_fail_save_clobbers_cex :
    ((load_config {} (.unreadable (.obj [("user_token", Json.str "tok-old"),
        ("session_token", Json.str "sess-old"), ("session_id", Json.str "sid-old"),
        ("email", Json.str "e@old")]))).2 = true) ∧
    ((Json.obj [("user_token", Json.str "tok-old"),
        ("session_token", Json.str "sess-old"), ("session_id", Json.str "sid-old"),
        ("email", Json.str "e@old")]).pyGet "user_token" = Json.str "tok-old") ∧
    (save_config (load_config {} (.unreadable (.obj [("user_token", Json.str "tok-old"),
        ("session_token", Json.str "sess-old"), ("session_id", Json.str "sid-old"),
        ("email", Json.str "e@old")]))).1
      = .content (.obj [("user_token", Json.null), ("session_token", Json.null),
                        ("session_id", Json.null), ("email", Json.null)])) ∧
    Json.null ≠ Json.str "tok-old" :=
  ⟨rfl, rfl, rfl, fun h => Json.noConfusion h⟩

/-- C3 amended: the four fields are persisted together as one record, but
it is overwritten wholesale from in-memory state on every save; when load
fails the in-memory fields are simply left as they were, and a subsequent
save writes exactly those in-memory values, clobbering (not merging with)
whatever the file held. -/
theorem load_fail_then_save_writes_memory_wholesale (st : CLIState) (f : FileState)
    (hfail : (load_config st f).2 = true) :
    (load_config st f).1 = st ∧
    save_config (load_config st f).1 = .content (saveRecord st) := by
  cases f with
  | absent => simp [load_config] at hfail
  | invalid raw => exact ⟨rfl, rfl⟩
  | unreadable j => exact ⟨rfl, rfl⟩
  | content j =>
    cases j with
    | obj fs => simp [load_config] at hfail
    | null => exact ⟨rfl, rfl⟩
    | bool b => exact ⟨rfl, rfl⟩
    | num n => exact ⟨rfl, rfl⟩
    | str s => exact ⟨rfl, rfl⟩
    | arr xs => exact ⟨rfl, rfl⟩

theorem load_fail_then_save_writes_memory_wholesale_witness :
    (load_config { user_token := Json.str "mem-tok" } (.invalid "oops not json")).1
      = { user_token := Json.str "mem-tok" } ∧
    save_config (load_config { user_token := Json.str "mem-tok" }
        (.invalid "oops not json")).1
      = .content (saveRecord { user_token := Json.str "mem-tok" }) :=
  load_fail_then_save_writes_memory_wholesale
    { user_token := Json.str "mem-tok" } (.invalid "oops not json") rfl

/-- C4 counterexample: the config file already holds a truthy
`session_token` from a previous run, yet on the quick-login path
(`--email`/`--password` given) `main` invokes `create_session`
unconditionally after the login — one invocation, not zero. -/
theorem quick_login_calls_create_session_despite_saved_session_cex :
    (((load_config {} (.content (.obj [("user_token", Json.str "U"),
        ("session_token", Json.str "SAVED"), ("session_id", Json.str "I"),
        ("email", Json.str "E")]))).1).session_token.truthy = true) ∧
    ((mainRun (.content (.obj [("user_token", Json.str "U"),
        ("session_token", Json.str "SAVED"), ("session_id", Json.str "I"),
        ("email", Json.str "E")]))
        ⟨some "e@x", some "pw"⟩
        (.ok ⟨200, .ok (.obj [("access_token", Json.str "T2")]), "t"⟩)
        (.ok ⟨200, .ok (.obj [("token", .obj [("access_token", Json.str "S2")]),
                              ("session_id", Json.str "sid2")]), "t"⟩)
        ⟨"", "", .error "u", .error "u", []⟩).createCalls = 1) :=
  ⟨rfl, rfl⟩

/-- C4 amended: on the interactive startup path (no quick-login flags), a
saved truthy `session_token` means `create_session` is never invoked for
the whole process: startup skips it, and since the session token stays set
the loop (including `chat`) never invokes it either.  (On the quick-login
path the source invokes it unconditionally after login.) -/
theorem interactive_saved_session_never_creates (file : FileState) (args : MainArgs)
    (ql qc : HttpResult) (env : RunEnv)
    (hargs : argTruthy args.email = false ∨ argTruthy args.password = false)
    (hsess : ((load_config {} file).1).session_token.truthy = true) :
    (mainRun file args ql qc env).createCalls = 0 := by
  have hr := run_truthy_no_creates ((load_config {} file).1) env hsess
  cases args with
  | mk em pw =>
    cases em with
    | none => simpa [mainRun] using hr
    | some e =>
      cases pw with
      | none => simpa [mainRun] using hr
      | some p =>
        rcases hargs with ha | ha
        · have he : (e != "") = false := by simpa [argTruthy] using ha
          simpa [mainRun, he] using hr
        · have hp : (p != "") = false := by simpa [argTruthy] using ha
          simpa [mainRun, hp] using hr

theorem interactive_saved_session_never_creates_witness :
    (((load_config {} (.content (.obj [("user_token", Json.str "U"),
        ("session_token", Json.str "SAVED"), ("session_id", Json.str "I"),
        ("email", Json.str "E")]))).1).session_token.truthy = true) ∧
    ((mainRun (.content (.obj [("user_token", Json.str "U"),
        ("session_token", Json.str "SAVED"), ("session_id", Json.str "I"),
        ("email", Json.str "E")]))
        ⟨none, none⟩ (.error "u") (.error "u")
        ⟨"", "", .error "u", .error "u",
         [⟨"hello there", .error "u", .error "u", .error "u", .error "u"⟩,
          ⟨"quit", .error "u", .error "u", .error "u", .error "u"⟩]⟩).createCalls = 0) :=
  ⟨rfl,
   interactive_saved_session_never_creates
     (.content (.obj [("user_token", Json.str "U"),
        ("session_token", Json.str "SAVED"), ("session_id", Json.str "I"),
        ("email", Json.str "E")]))
     ⟨none, none⟩ (.error "u") (.error "u")
     ⟨"", "", .error "u", .error "u",
      [⟨"hello there", .error "u", .error "u", .error "u", .error "u"⟩,
       ⟨"quit", .error "u", .error "u", .error "u", .error "u"⟩]⟩
     (Or.inl rfl) rfl⟩

/-- C7 counterexample: the user sends `clear` and the DELETE comes back
with HTTP 500 — a failed delete — yet the transcript is reset and the
success message is printed, with no error message: the source never
examines the status code of the DELETE response. -/
theorem clear_http_error_still_resets_cex :
    ((loopStep { session_token := Json.str "S" } [userMsg "old"]
        ⟨"clear", .ok ⟨500, .error "nb", "internal server error"⟩,
         .error "u", .error "u", .error "u"⟩).deleteCalled = true) ∧
    ((loopStep { session_token := Json.str "S" } [userMsg "old"]
        ⟨"clear", .ok ⟨500, .error "nb", "internal server error"⟩,
         .error "u", .error "u", .error "u"⟩).successPrinted = true) ∧
    ((loopStep { session_token := Json.str "S" } [userMsg "old"]
        ⟨"clear", .ok ⟨500, .error "nb", "internal server error"⟩,
         .error "u", .error "u", .error "u"⟩).errorPrinted = false) ∧
    ((loopStep { session_token := Json.str "S" } [userMsg "old"]
        ⟨"clear", .ok ⟨500, .error "nb", "internal server error"⟩,
         .error "u", .error "u", .error "u"⟩).history = []) ∧
    is2xx 500 = false :=
  ⟨rfl, rfl, rfl, rfl, rfl⟩

/-- C7 amended: on `clear` a DELETE with the session bearer token is
issued and the loop continues; if and only if the request completes
without a transport exception — the HTTP status code is never examined —
the in-memory transcript is reset and a success message shown, while a
transport failure shows an error message and leaves the transcript. -/
theorem clear_resets_iff_no_transport_error (st : CLIState) (hist : List Json)
    (ev : TurnEnv) (hclear : pyLower (pyStrip ev.input) = "clear") :
    (loopStep st hist ev).quit = false ∧
    (loopStep st hist ev).deleteCalled = true ∧
    (loopStep st hist ev).deleteBearer = some st.session_token ∧
    (∀ r : Response, ev.deleteResp = .ok r →
        (loopStep st hist ev).history = [] ∧
        (loopStep st hist ev).successPrinted = true ∧
        (loopStep st hist ev).errorPrinted = false) ∧
    (∀ e, ev.deleteResp = .error e →
        (loopStep st hist ev).history = hist ∧
        (loopStep st hist ev).successPrinted = false ∧
        (loopStep st hist ev).errorPrinted = true) := by
  have hne : pyStrip ev.input ≠ "" := by
    intro h
    rw [h] at hclear
    exact absurd hclear (by decide)
  have hq : ¬(pyLower (pyStrip ev.input) = "quit" ∨ pyLower (pyStrip ev.input) = "exit" ∨
      pyLower (pyStrip ev.input) = "q") := by
    rw [hclear]
    decide
  cases hd : ev.deleteResp with
  | ok r =>
    refine ⟨?_, ?_, ?_, fun r2 h2 => ⟨?_, ?_, ?_⟩, fun e he => by simp [hd] at he⟩ <;>
      simp [loopStep, hne, hq, hclear, hd]
  | error e =>
    refine ⟨?_, ?_, ?_, fun r2 h2 => by simp [hd] at h2, fun e2 he => ⟨?_, ?_, ?_⟩⟩ <;>
      simp [loopStep, hne, hq, hclear, hd]

theorem clear_resets_iff_no_transport_error_witness :
    ((loopStep { session_token := Json.str "S" } [userMsg "x"]
        ⟨"clear", .ok ⟨204, .error "nb", ""⟩, .error "u", .error "u", .error "u"⟩).deleteCalled
      = true) ∧
    ((loopStep { session_token := Json.str "S" } [userMsg "x"]
        ⟨"clear", .ok ⟨204, .error "nb", ""⟩, .error "u", .error "u", .error "u"⟩).deleteBearer
      = some (Json.str "S")) ∧
    ((loopStep { session_token := Json.str "S" } [userMsg "x"]
        ⟨"clear", .ok ⟨204, .error "nb", ""⟩, .error "u", .error "u", .error "u"⟩).history
      = []) ∧
    ((loopStep { session_token := Json.str "S" } [userMsg "x"]
        ⟨"clear", .ok ⟨204, .error "nb", ""⟩, .error "u", .error "u", .error "u"⟩).successPrinted
      = true) :=
  have h := clear_resets_iff_no_transport_error { session_token := Json.str "S" }
    [userMsg "x"]
    ⟨"clear", .ok ⟨204, .error "nb", ""⟩, .error "u", .error "u", .error "u"⟩ rfl
  ⟨h.2.1, h.2.2.1, (h.2.2.2.1 ⟨204, .error "nb", ""⟩ rfl).1,
   (h.2.2.2.1 ⟨204, .error "nb", ""⟩ rfl).2.1⟩

end ChatCLI
